import Mathlib

/-!
Verification development for the JASP engine worker process
(src/JASP-Engine/engine.cpp). The definitions below are a shallow
embedding of the engine state machine: the process-wide engine state,
the per-analysis status, message handlers and the reentrant callback.
Calls into the embedded R runtime (rbridge / jaspRCPP) are opaque to the
engine; their return values are passed in as explicit parameters.
Side effects on the outside world (responses written to the IPC channel,
log lines, temp-file deletion) are modelled as explicit outputs.
-/

/-- The process-wide engine state (`engineState` in enginedefinitions.h,
mirrored by the dispatch switch in engine.cpp). -/
inductive EngineState where
  | uninitialized
  | initializing
  | idle
  | analysis
  | filter
  | rCode
  | computeColumn
  | moduleRequest
  | pauseRequested
  | paused
  | resuming
  | stopRequested
  | stopped
  | logCfg
  | settings
deriving DecidableEq, Repr

/-- The per-analysis status (`engineAnalysisStatus`), orthogonal to
`EngineState` while an analysis is active. -/
inductive AnalysisStatus where
  | empty
  | toInit
  | initing
  | inited
  | toRun
  | running
  | changed
  | aborted
  | stopped
  | complete
  | saveImg
  | editImg
  | rewriteImgs
  | error
  | exception
deriving DecidableEq, Repr

/-- The `perform` field of an analysis request (`performType`). The five
values handled by the switch in `Engine::receiveAnalysisMessage` are
listed first; `abort` stands for the remaining enum values, which fall
into the `default:` branch of that switch. -/
inductive PerformType where
  | init
  | run
  | saveImg
  | editImg
  | rewriteImgs
  | abort
deriving DecidableEq, Repr

/-- The tagged result returned from the reentrant callback into the
compute runtime: the JSON strings
`\x7b "status" : "ok" \x7d`, `\x7b "status" : "aborted" \x7d` and
`\x7b "status" : "changed", "options" : ... \x7d` built at the end of
`Engine::callback`. -/
inductive Directive where
  | ok
  | aborted
  | changed (options : String)
deriving DecidableEq, Repr

/-- An incoming analysis request, with the JSON field extraction of
`Engine::receiveAnalysisMessage` already applied: absent string fields
default to `""` (via `Json::get(..) .asString()`), absent `revision`
defaults to `-1`. `requiresInit` and `jaspResults` keep their
absent/present distinction because the source checks `isNull()`
respectively defaults to `false`. -/
structure AnalysisRequest where
  id : Int
  perform : PerformType
  name : String
  title : String
  dataKey : String
  resultsMeta : String
  stateKey : String
  revision : Int
  image : String
  rfile : String
  dynamicModuleCall : String
  requiresInit : Option Bool
  jaspResults : Option Bool
  options : String
deriving DecidableEq, Repr

/-- The mutable fields of the `Engine` singleton that the embedded
handlers read and write. JSON values that the source only stores and
forwards (`_imageOptions`, `_analysisOptions`, dataKey etc.) are kept as
strings. -/
structure Engine where
  engineState : EngineState
  analysisId : Int
  analysisStatus : AnalysisStatus
  analysisName : String
  analysisTitle : String
  analysisDataKey : String
  analysisResultsMeta : String
  analysisStateKey : String
  analysisRevision : Int
  imageOptions : String
  analysisRFile : String
  dynamicModuleCall : String
  analysisRequiresInit : Bool
  analysisJaspResults : Bool
  analysisOptions : String
  analysisResultsString : String
  currentAnalysisKnowsAboutChange : Bool
  progress : Int
deriving DecidableEq, Repr

/-- An engine in its post-initialization resting state (the member
initializers of engine.h: id -1, empty status, idle). -/
def engine0 : Engine :=
  { engineState := EngineState.idle
    analysisId := -1
    analysisStatus := AnalysisStatus.empty
    analysisName := ""
    analysisTitle := ""
    analysisDataKey := ""
    analysisResultsMeta := ""
    analysisStateKey := ""
    analysisRevision := -1
    imageOptions := ""
    analysisRFile := ""
    dynamicModuleCall := ""
    analysisRequiresInit := true
    analysisJaspResults := false
    analysisOptions := ""
    analysisResultsString := ""
    currentAnalysisKnowsAboutChange := false
    progress := -1 }

/-- The status test guarding the request-field capture block at the end
of `Engine::receiveAnalysisMessage` (engine.cpp lines 459-464). -/
def statusTriggersCapture (s : AnalysisStatus) : Bool :=
  s == AnalysisStatus.toInit || s == AnalysisStatus.toRun ||
  s == AnalysisStatus.changed || s == AnalysisStatus.saveImg ||
  s == AnalysisStatus.editImg || s == AnalysisStatus.rewriteImgs

/-- First phase of `Engine::receiveAnalysisMessage` (engine.cpp lines
433-453): decide the new `AnalysisStatus` (and possibly adopt the new
analysis id) from the request id, the `perform` value and the current
status. -/
def receiveAnalysisPhase1 (e : Engine) (r : AnalysisRequest) : Engine :=
  if r.id = e.analysisId ∧ e.analysisStatus = AnalysisStatus.running then
    { e with analysisStatus :=
        if r.perform = PerformType.init ∨
           (e.analysisJaspResults = true ∧ r.perform = PerformType.run)
        then AnalysisStatus.changed else AnalysisStatus.aborted }
  else
    { e with
      analysisId := r.id
      analysisStatus :=
        match r.perform with
        | PerformType.init => AnalysisStatus.toInit
        | PerformType.run => AnalysisStatus.toRun
        | PerformType.saveImg => AnalysisStatus.saveImg
        | PerformType.editImg => AnalysisStatus.editImg
        | PerformType.rewriteImgs => AnalysisStatus.rewriteImgs
        | PerformType.abort => AnalysisStatus.error }

/-- The request-field capture block of `Engine::receiveAnalysisMessage`
(engine.cpp lines 466-484): snapshot-replace of the pending analysis
request fields, setting the rich-results flag and entering the
`analysis` engine state. The column-name encoding of the options
(`JASP_COLUMN_ENCODE_ALL`) is compiled out in this configuration. -/
def captureRequestFields (e : Engine) (r : AnalysisRequest) : Engine :=
  { e with
    analysisName := r.name
    analysisTitle := r.title
    analysisDataKey := r.dataKey
    analysisResultsMeta := r.resultsMeta
    analysisStateKey := r.stateKey
    analysisRevision := r.revision
    imageOptions := r.image
    analysisRFile := r.rfile
    dynamicModuleCall := r.dynamicModuleCall
    analysisRequiresInit := r.requiresInit.getD true
    analysisJaspResults := (r.dynamicModuleCall != "") || r.jaspResults.getD false
    engineState := EngineState.analysis
    analysisOptions := r.options }

/-- `Engine::receiveAnalysisMessage` (engine.cpp lines 424-486): guard
against being called outside `idle`/`analysis` (the source throws),
then decide the new status and capture the request fields exactly when
the resulting status is one of the six capture statuses. -/
def receiveAnalysisMessage (e : Engine) (r : AnalysisRequest) :
    Except String Engine :=
  if e.engineState ≠ EngineState.idle ∧ e.engineState ≠ EngineState.analysis then
    Except.error "Unexpected analysis message, current state is not idle or analysis"
  else if statusTriggersCapture (receiveAnalysisPhase1 e r).analysisStatus then
    Except.ok (captureRequestFields (receiveAnalysisPhase1 e r) r)
  else
    Except.ok (receiveAnalysisPhase1 e r)

/-- The pending-analysis-request snapshot held by the engine: the fields
written exactly by the capture block of `Engine::receiveAnalysisMessage`. -/
structure RequestSnapshot where
  name : String
  title : String
  dataKey : String
  resultsMeta : String
  stateKey : String
  revision : Int
  image : String
  rfile : String
  dynamicModuleCall : String
  requiresInit : Bool
  jaspResults : Bool
  options : String
deriving DecidableEq, Repr

/-- The snapshot fields currently stored in the engine. -/
def Engine.snapshot (e : Engine) : RequestSnapshot :=
  { name := e.analysisName
    title := e.analysisTitle
    dataKey := e.analysisDataKey
    resultsMeta := e.analysisResultsMeta
    stateKey := e.analysisStateKey
    revision := e.analysisRevision
    image := e.imageOptions
    rfile := e.analysisRFile
    dynamicModuleCall := e.dynamicModuleCall
    requiresInit := e.analysisRequiresInit
    jaspResults := e.analysisJaspResults
    options := e.analysisOptions }

/-- The snapshot a request turns into when captured (the right-hand
sides of the capture block assignments). -/
def AnalysisRequest.snapshot (r : AnalysisRequest) : RequestSnapshot :=
  { name := r.name
    title := r.title
    dataKey := r.dataKey
    resultsMeta := r.resultsMeta
    stateKey := r.stateKey
    revision := r.revision
    image := r.image
    rfile := r.rfile
    dynamicModuleCall := r.dynamicModuleCall
    requiresInit := r.requiresInit.getD true
    jaspResults := (r.dynamicModuleCall != "") || r.jaspResults.getD false
    options := r.options }

/-- An analysis response envelope as assembled by
`Engine::sendAnalysisResults` (engine.cpp lines 682-699). The JSON
parsing of the results payload is not modelled: `results` carries the
raw results string and `status` the string derived from the analysis
status. -/
structure AnalysisResponse where
  typeRequest : String
  id : Int
  name : String
  revision : Int
  progress : Int
  results : String
  status : String
deriving DecidableEq, Repr

/-- `Engine::getStatusToAnalysisStatus` (engine.cpp lines 670-680),
composed with the string conversion of `analysisResultStatus`. -/
def getStatusToAnalysisStatus (s : AnalysisStatus) : String :=
  match s with
  | AnalysisStatus.inited => "inited"
  | AnalysisStatus.running => "running"
  | AnalysisStatus.changed => "running"
  | AnalysisStatus.complete => "complete"
  | _ => "fatalError"

/-- `Engine::sendAnalysisResults` (engine.cpp lines 682-699). The
override of the status by a "status" member parsed out of the results
JSON is not modelled (the result payload stays an opaque string here). -/
def sendAnalysisResults (e : Engine) : AnalysisResponse :=
  { typeRequest := "analysis"
    id := e.analysisId
    name := e.analysisName
    revision := e.analysisRevision
    progress := e.progress
    results := e.analysisResultsString
    status := getStatusToAnalysisStatus e.analysisStatus }

/-- `Engine::callback` (engine.cpp lines 758-799), the reentrant
callback invoked by the compute runtime with a partial result payload
and a progress percentage. The source first re-enters
`receiveMessages()`; `e` here is the engine state as it stands right
after that re-entered dispatch returned. The result is the directive
returned into the runtime, the new engine state, and the analysis
responses emitted on the channel during the call. -/
def callbackCore (e : Engine) (results : String) (progress : Int) :
    Directive × Engine × List AnalysisResponse :=
  if e.analysisStatus = AnalysisStatus.aborted ∨
     e.analysisStatus = AnalysisStatus.toInit ∨
     e.analysisStatus = AnalysisStatus.toRun then
    (Directive.aborted, e, [])
  else
    let e1 :=
      if e.analysisStatus = AnalysisStatus.changed ∧
         e.currentAnalysisKnowsAboutChange = true then
        { e with analysisStatus := AnalysisStatus.running
                 currentAnalysisKnowsAboutChange := false }
      else e
    let step : Engine × List AnalysisResponse :=
      if results ≠ "null" then
        let e2 := { e1 with analysisResultsString := results, progress := progress }
        (e2, [sendAnalysisResults e2])
      else if progress ≥ 0 ∧ e1.analysisStatus = AnalysisStatus.running then
        let e2 := { e1 with analysisResultsString := "", progress := progress }
        (e2, [sendAnalysisResults e2])
      else (e1, [])
    let e3 := step.1
    if e3.analysisStatus = AnalysisStatus.changed then
      (Directive.changed e3.analysisOptions,
       { e3 with currentAnalysisKnowsAboutChange := true }, step.2)
    else if e3.analysisStatus = AnalysisStatus.aborted then
      (Directive.aborted, e3, step.2)
    else
      (Directive.ok, e3, step.2)

/-- Result of the tail of `Engine::runAnalysis`: the new engine state,
the responses emitted, whether `TempFiles::deleteList(retrieveList(id))`
ran for the analysis id, and whether the non-keep temp files were
pruned. -/
structure RunReturn where
  engine : Engine
  responses : List AnalysisResponse
  tempFilesDeleted : Bool
  nonKeepPruned : Bool
deriving DecidableEq, Repr

/-- The tail of `Engine::runAnalysis` (engine.cpp lines 583-615),
entered when the compute runtime call has returned. `e` is the engine
state at that point: `analysisResultsString` holds the string the
runtime returned and `analysisStatus` reflects any mutations done by
reentrant callbacks (and by the trailing `receiveMessages()` of line
581) during the call. -/
def runAnalysisPostReturn (e : Engine) : RunReturn :=
  if e.analysisStatus = AnalysisStatus.toInit ∨
     e.analysisStatus = AnalysisStatus.aborted ∨
     e.analysisStatus = AnalysisStatus.error ∨
     e.analysisStatus = AnalysisStatus.exception then
    { engine := e, responses := [], tempFilesDeleted := false, nonKeepPruned := false }
  else if e.analysisStatus = AnalysisStatus.changed ∧
          (e.currentAnalysisKnowsAboutChange = false ∨
           e.analysisResultsString = "null") then
    { engine := { e with analysisStatus := AnalysisStatus.toInit }
      responses := []
      tempFilesDeleted := e.analysisResultsString == "null"
      nonKeepPruned := false }
  else if e.analysisJaspResults = false then
    let e1 := { e with
      analysisStatus :=
        if e.analysisStatus = AnalysisStatus.initing then AnalysisStatus.inited
        else AnalysisStatus.complete
      progress := -1 }
    { engine := { e1 with engineState := EngineState.idle
                          analysisStatus := AnalysisStatus.empty }
      responses := [sendAnalysisResults e1]
      tempFilesDeleted := false
      nonKeepPruned := true }
  else
    { engine := { e with engineState := EngineState.idle
                         analysisStatus := AnalysisStatus.empty }
      responses := []
      tempFilesDeleted := false
      nonKeepPruned := true }

/-- `Engine::stopEngine` (engine.cpp lines 850-867). The second
component of the result is the `typeRequest` tag of the acknowledgment
sent by `sendEngineStopped` (which reads the engine state after it was
set to `stopped`). The throw for filter/computeColumn is modelled as
`Except.error`. -/
def stopEngine (e : Engine) : Except String (Engine × EngineState) :=
  if e.engineState = EngineState.filter ∨
     e.engineState = EngineState.computeColumn then
    Except.error "Unexpected data synch during filter or computeColumn"
  else
    let e1 := if e.engineState = EngineState.analysis then
                { e with analysisStatus := AnalysisStatus.aborted }
              else e
    Except.ok ({ e1 with engineState := EngineState.stopped }, EngineState.stopped)

/-- `Engine::pauseEngine` (engine.cpp lines 876-893). The second
component is the `typeRequest` tag of the acknowledgment sent by
`sendEnginePaused` (always `paused`). -/
def pauseEngine (e : Engine) : Except String (Engine × EngineState) :=
  if e.engineState = EngineState.filter ∨
     e.engineState = EngineState.computeColumn then
    Except.error "Unexpected data synch during filter or computeColumn"
  else
    let e1 := if e.engineState = EngineState.analysis then
                { e with analysisStatus := AnalysisStatus.aborted }
              else e
    Except.ok ({ e1 with engineState := EngineState.paused }, EngineState.paused)

/-- Modelled from the spec: `engineStateFromString` is generated in
enginedefinitions.h, which is not under src/. Each engine state name
maps to the matching state; per the spec an unknown tag is a fatal
configuration error, modelled as `none` (the dispatch below turns it
into an error, as the real conversion throws). -/
def engineStateFromString (s : String) : Option EngineState :=
  if s = "uninitialized" then some EngineState.uninitialized
  else if s = "initializing" then some EngineState.initializing
  else if s = "idle" then some EngineState.idle
  else if s = "analysis" then some EngineState.analysis
  else if s = "filter" then some EngineState.filter
  else if s = "rCode" then some EngineState.rCode
  else if s = "computeColumn" then some EngineState.computeColumn
  else if s = "moduleRequest" then some EngineState.moduleRequest
  else if s = "pauseRequested" then some EngineState.pauseRequested
  else if s = "paused" then some EngineState.paused
  else if s = "resuming" then some EngineState.resuming
  else if s = "stopRequested" then some EngineState.stopRequested
  else if s = "stopped" then some EngineState.stopped
  else if s = "logCfg" then some EngineState.logCfg
  else if s = "settings" then some EngineState.settings
  else none

/-- The request types for which the dispatch switch of
`Engine::receiveMessages` (engine.cpp lines 195-208) has a case; every
other `engineState` value falls into the throwing `default:` branch. -/
def handledRequest (t : EngineState) : Bool :=
  match t with
  | EngineState.analysis => true
  | EngineState.filter => true
  | EngineState.rCode => true
  | EngineState.computeColumn => true
  | EngineState.pauseRequested => true
  | EngineState.resuming => true
  | EngineState.moduleRequest => true
  | EngineState.stopRequested => true
  | EngineState.logCfg => true
  | EngineState.settings => true
  | _ => false

/-- Whether a non-empty `typeRequest` tag names a handled request type. -/
def tagHandled (s : String) : Bool :=
  match engineStateFromString s with
  | some t => handledRequest t
  | none => false

/-- Outcome of one dispatch step of `Engine::receiveMessages`: either no
usable message (empty data or empty/absent `typeRequest` tag, the early
`return false` paths), or the handler for the given request type ran. -/
inductive DispatchResult where
  | noMessage
  | handled (t : EngineState)
deriving DecidableEq, Repr

/-- The `typeRequest` dispatch of `Engine::receiveMessages` (engine.cpp
lines 186-208). The input is the `typeRequest` tag of the decoded
envelope: `none` when the field is absent (`Json::get` then yields the
empty string, which the source treats the same as an empty tag). An
unknown tag is fatal: either the string conversion throws (modelled by
`engineStateFromString` returning `none`) or the switch hits its
throwing `default:` branch. -/
def receiveMessagesDispatch (tag : Option String) : Except String DispatchResult :=
  match tag with
  | none => Except.ok DispatchResult.noMessage
  | some s =>
    if s = "" then Except.ok DispatchResult.noMessage
    else
      match engineStateFromString s with
      | none => Except.error "Engine::receiveMessages begs you to add your new engineState to it"
      | some t =>
        if handledRequest t then Except.ok (DispatchResult.handled t)
        else Except.error "Engine::receiveMessages begs you to add your new engineState to it"

/-- True exactly when the computation raised (threw). -/
def exceptErrored {α : Type} (x : Except String α) : Bool :=
  match x with
  | Except.error _ => true
  | Except.ok _ => false

/-- A filter request with the JSON field defaults of
`Engine::receiveFilterMessage` applied (absent strings become `""`,
absent `requestId` becomes `-1`). -/
structure FilterRequest where
  filter : String
  generatedFilter : String
  requestId : Int
deriving DecidableEq, Repr

/-- A filter response envelope as assembled by
`Engine::sendFilterResult` / `Engine::sendFilterError`. Optional fields
are `none` when the source does not set the JSON member. -/
structure FilterResponse where
  typeRequest : String
  requestId : Int
  filterResult : Option (List Bool)
  filterError : Option String
deriving DecidableEq, Repr

/-- `Engine::sendFilterResult` (engine.cpp lines 246-258): the
`filterError` member is set only when the warning string is non-empty. -/
def sendFilterResult (filterRequestId : Int) (filterResult : List Bool)
    (warning : String) : FilterResponse :=
  { typeRequest := "filter"
    requestId := filterRequestId
    filterResult := some filterResult
    filterError := if warning ≠ "" then some warning else none }

/-- `Engine::sendFilterError` (engine.cpp lines 260-269). -/
def sendFilterError (filterRequestId : Int) (errorMessage : String) :
    FilterResponse :=
  { typeRequest := "filter"
    requestId := filterRequestId
    filterResult := none
    filterError := some errorMessage }

/-- `Engine::runFilter` (engine.cpp lines 227-244). The call into the
runtime (`rbridge_applyFilter` plus `jaspRCPP_getLastErrorMsg`) is
opaque to the engine and passed in as `outcome`: `Except.ok` carries the
per-row result together with a possible warning, `Except.error` carries
the message of a thrown `filterException`. Both paths end by resetting
the engine state to `idle`. -/
def runFilter (e : Engine) (outcome : Except String (List Bool × String))
    (filterRequestId : Int) : Engine × FilterResponse :=
  match outcome with
  | Except.ok res =>
    ({ e with engineState := EngineState.idle },
     sendFilterResult filterRequestId res.1 res.2)
  | Except.error msg =>
    ({ e with engineState := EngineState.idle },
     sendFilterError filterRequestId
       (if msg.length > 0 then msg
        else "Something went wrong with the filter but it is unclear what."))

/-- `Engine::receiveFilterMessage` (engine.cpp lines 214-225). The
boolean in the result records whether the unexpected-state log line was
written (the source logs when the engine state is not `idle`, then
proceeds regardless). -/
def receiveFilterMessage (e : Engine) (req : FilterRequest)
    (outcome : Except String (List Bool × String)) :
    (Engine × FilterResponse) × Bool :=
  let logged := e.engineState != EngineState.idle
  let e1 := { e with engineState := EngineState.filter }
  (runFilter e1 outcome req.requestId, logged)

/-- An rCode request with the JSON field defaults of
`Engine::receiveRCodeMessage` applied (`requestId` -1, `whiteListed`
true, `returnLog` false when absent). -/
structure RCodeRequest where
  rCode : String
  requestId : Int
  whiteListed : Bool
  returnLog : Bool
deriving DecidableEq, Repr

/-- An rCode response envelope as assembled by
`Engine::sendRCodeResult` / `Engine::sendRCodeError`. -/
structure RCodeResponse where
  typeRequest : String
  rCodeResult : Option String
  rCodeError : Option String
  requestId : Int
deriving DecidableEq, Repr

/-- `Engine::sendRCodeResult` (engine.cpp lines 329-343): the
`rCodeError` member is set only when the last R error message is
non-empty. -/
def sendRCodeResult (rCodeResult : String) (rCodeRequestId : Int)
    (lastError : String) : RCodeResponse :=
  { typeRequest := "rCode"
    rCodeResult := some rCodeResult
    rCodeError := if lastError.length > 0 then some lastError else none
    requestId := rCodeRequestId }

/-- `Engine::sendRCodeError` (engine.cpp lines 345-356). -/
def sendRCodeError (rCodeRequestId : Int) (lastError : String) :
    RCodeResponse :=
  { typeRequest := "rCode"
    rCodeResult := none
    rCodeError := some (if lastError.length = 0
      then "R Code failed for unknown reason. Check that R function returns a string."
      else lastError)
    requestId := rCodeRequestId }

/-- `Engine::runRCode` (engine.cpp lines 287-296): the `whiteListed`
flag selects the evaluator (`rbridge_evalRCodeWhiteListed` versus
`jaspRCPP_evalRCode`); their return values are the parameters
`evalWhiteListedResult` and `evalFullResult`. A `"null"` result is
reported as an error. -/
def runRCode (e : Engine) (whiteListed : Bool)
    (evalWhiteListedResult evalFullResult : String) (rCodeRequestId : Int)
    (lastError : String) : Engine × RCodeResponse :=
  let rCodeResult := if whiteListed then evalWhiteListedResult else evalFullResult
  if rCodeResult == "null" then
    ({ e with engineState := EngineState.idle }, sendRCodeError rCodeRequestId lastError)
  else
    ({ e with engineState := EngineState.idle },
     sendRCodeResult rCodeResult rCodeRequestId lastError)

/-- `Engine::runRCodeCommander` (engine.cpp lines 299-326). When the
dataset is present, the code is column-encoded, the dataset is
materialized into the evaluation environment, and the commander result
is column-decoded afterwards (`decodeAll` stands for
`ColumnEncoder::decodeAll`; the evaluation itself is the opaque
parameter `commanderResult`). The response always carries requestId -1. -/
def runRCodeCommander (e : Engine) (hasData : Bool)
    (decodeAll : String → String) (commanderResult : String)
    (lastError : String) : Engine × RCodeResponse :=
  let rCodeResult := if hasData then decodeAll commanderResult else commanderResult
  ({ e with engineState := EngineState.idle },
   sendRCodeResult rCodeResult (-1) lastError)

/-- `Engine::receiveRCodeMessage` (engine.cpp lines 271-284): log when
not idle (but proceed), then run either the commander variant
(`returnLog` true) or the plain variant. -/
def receiveRCodeMessage (e : Engine) (req : RCodeRequest) (hasData : Bool)
    (decodeAll : String → String)
    (evalWhiteListedResult evalFullResult commanderResult lastError : String) :
    (Engine × RCodeResponse) × Bool :=
  let logged := e.engineState != EngineState.idle
  let e1 := { e with engineState := EngineState.rCode }
  (if req.returnLog then
     runRCodeCommander e1 hasData decodeAll commanderResult lastError
   else
     runRCode e1 req.whiteListed evalWhiteListedResult evalFullResult
       req.requestId lastError,
   logged)

/-- A computed-column response envelope as assembled by
`Engine::runComputeColumn` (engine.cpp lines 388-395). -/
structure ComputeColumnResponse where
  typeRequest : String
  result : String
  error : String
  columnName : String
deriving DecidableEq, Repr

/-- `Engine::receiveComputeColumnMessage` followed by
`Engine::runComputeColumn` (engine.cpp lines 358-398): log when not
idle (but proceed), evaluate the assembled column-computation code in
the runtime (opaque: its result string and last error message are the
parameters), send the response, return to `idle`. The boolean records
whether the unexpected-state log line was written. -/
def receiveComputeColumnMessage (e : Engine) (columnName _computeCode : String)
    (evalResult lastError : String) :
    (Engine × ComputeColumnResponse) × Bool :=
  let logged := e.engineState != EngineState.idle
  let e1 := { e with engineState := EngineState.computeColumn }
  (({ e1 with engineState := EngineState.idle },
    { typeRequest := "computeColumn"
      result := evalResult
      error := lastError
      columnName := columnName }), logged)

/-- A module request message. -/
structure ModuleRequestMsg where
  moduleRequest : String
  moduleCode : String
  moduleName : String
deriving DecidableEq, Repr

/-- A module response envelope as assembled by
`Engine::receiveModuleRequestMessage` (engine.cpp lines 411-419). -/
structure ModuleResponse where
  moduleRequest : String
  moduleName : String
  succes : Bool
  error : String
  typeRequest : String
deriving DecidableEq, Repr

/-- `Engine::receiveModuleRequestMessage` (engine.cpp lines 400-422):
evaluate the module code (opaque, parameter `evalResult`), report
success exactly when the result is the string "succes!", return to
`idle`. NOTE: unlike the filter, rCode and computeColumn receivers, the
source contains no check of the engine state here, so the
unexpected-state boolean in the result is always `false` (nothing is
ever logged). -/
def receiveModuleRequestMessage (e : Engine) (req : ModuleRequestMsg)
    (evalResult lastError : String) : (Engine × ModuleResponse) × Bool :=
  let e1 := { e with engineState := EngineState.moduleRequest }
  (({ e1 with engineState := EngineState.idle },
    { moduleRequest := req.moduleRequest
      moduleName := req.moduleName
      succes := evalResult == "succes!"
      error := lastError
      typeRequest := "moduleRequest" }), false)

/-- A basic run-perform request for analysis id 5 used in concrete
evaluations. -/
def c1req : AnalysisRequest :=
  { id := 5, perform := PerformType.run, name := "Ttest", title := "T"
    dataKey := "dk", resultsMeta := "rm", stateKey := "sk", revision := 3
    image := "", rfile := "", dynamicModuleCall := "", requiresInit := none
    jaspResults := some true, options := "optsNew" }

/-- An engine running analysis id 5 under the rich-results protocol. -/
def c1eng : Engine :=
  { engine0 with engineState := EngineState.analysis, analysisId := 5
                 analysisStatus := AnalysisStatus.running
                 analysisJaspResults := true, analysisOptions := "optsOld" }

/-- The engine state produced by feeding `c1req` to `c1eng`. -/
def c1engAfter : Engine :=
  captureRequestFields (receiveAnalysisPhase1 c1eng c1req) c1req

/-- An engine whose analysis is in status `changed` with the runtime
already informed of the change (the flag was set by a previous callback
invocation that returned the changed directive). -/
def c2eng : Engine :=
  { engine0 with engineState := EngineState.analysis, analysisId := 5
                 analysisStatus := AnalysisStatus.changed
                 analysisJaspResults := true, analysisOptions := "opts"
                 currentAnalysisKnowsAboutChange := true }

/-- An engine whose analysis is in status `changed` with the runtime
not yet informed of the change. -/
def c2wEng : Engine :=
  { engine0 with engineState := EngineState.analysis, analysisId := 5
                 analysisStatus := AnalysisStatus.changed
                 analysisJaspResults := true, analysisOptions := "newOpts"
                 currentAnalysisKnowsAboutChange := false }

/-- An engine running analysis id 7 under the rich-results protocol,
with an old options snapshot. -/
def c3eng : Engine :=
  { engine0 with engineState := EngineState.analysis, analysisId := 7
                 analysisStatus := AnalysisStatus.running
                 analysisJaspResults := true, analysisOptions := "oldOptions"
                 analysisName := "oldName" }

/-- A same-id run request carrying new options for analysis id 7. -/
def c3req : AnalysisRequest :=
  { id := 7, perform := PerformType.run, name := "newName", title := "t"
    dataKey := "", resultsMeta := "", stateKey := "", revision := 4
    image := "", rfile := "", dynamicModuleCall := "", requiresInit := none
    jaspResults := some true, options := "newOptions" }

/-- The engine state produced by feeding `c3req` to `c3eng`. -/
def c3engAfter : Engine :=
  captureRequestFields (receiveAnalysisPhase1 c3eng c3req) c3req

/-- An engine whose runtime call just returned `"null"` while the
status is `changed` and the runtime was informed of the change. -/
def c4eng : Engine :=
  { engine0 with engineState := EngineState.analysis, analysisId := 5
                 analysisStatus := AnalysisStatus.changed
                 currentAnalysisKnowsAboutChange := true
                 analysisResultsString := "null" }

/-- An engine whose runtime call returned a non-null result while the
status is `changed` and the runtime never invoked the callback (so it
was never informed of the change). -/
def c4cexEng : Engine :=
  { engine0 with engineState := EngineState.analysis, analysisId := 5
                 analysisStatus := AnalysisStatus.changed
                 currentAnalysisKnowsAboutChange := false
                 analysisResultsString := "partialResult" }

/-- An engine in the middle of an analysis, as seen by pause/stop. -/
def c5eng : Engine :=
  { engine0 with engineState := EngineState.analysis, analysisId := 5
                 analysisStatus := AnalysisStatus.running }

/-- An engine that is not idle (it is running an analysis), as seen by
an arriving module request. -/
def c8eng : Engine :=
  { engine0 with engineState := EngineState.analysis, analysisId := 5
                 analysisStatus := AnalysisStatus.running }

/-- A module request used in concrete evaluations. -/
def c8mreq : ModuleRequestMsg :=
  { moduleRequest := "loadModule", moduleCode := "lib(x)", moduleName := "x" }

/-- A fresh init request whose dynamic module call is non-empty. -/
def c9req : AnalysisRequest :=
  { id := 3, perform := PerformType.init, name := "descr", title := "d"
    dataKey := "", resultsMeta := "", stateKey := "", revision := 0
    image := "", rfile := "", dynamicModuleCall := "mod$call", requiresInit := none
    jaspResults := none, options := "o9" }

/-- The engine state produced by feeding `c9req` to the resting engine. -/
def c9engAfter : Engine :=
  captureRequestFields (receiveAnalysisPhase1 engine0 c9req) c9req

/-- An rCode request asking for the commander variant (`returnLog`). -/
def c10req : RCodeRequest :=
  { rCode := "summary(data)", requestId := 42, whiteListed := false
    returnLog := true }

/-- Capturing the request fields leaves the analysis status untouched. -/
theorem captureRequestFields_status (e : Engine) (r : AnalysisRequest) :
    (captureRequestFields e r).analysisStatus = e.analysisStatus := rfl

/-- Capturing the request fields leaves the analysis id untouched. -/
theorem captureRequestFields_id (e : Engine) (r : AnalysisRequest) :
    (captureRequestFields e r).analysisId = e.analysisId := rfl

/-- Capturing the request fields replaces the whole snapshot by the
fields of the request. -/
theorem captureRequestFields_snap (e : Engine) (r : AnalysisRequest) :
    (captureRequestFields e r).snapshot = r.snapshot := rfl

/-- The status-deciding phase never touches the snapshot fields. -/
theorem receiveAnalysisPhase1_snap (e : Engine) (r : AnalysisRequest) :
    (receiveAnalysisPhase1 e r).snapshot = e.snapshot := by
  unfold receiveAnalysisPhase1
  split <;> rfl

/-- In the id-match branch the status-deciding phase only rewrites the
status to changed or aborted. -/
theorem receiveAnalysisPhase1_match (e : Engine) (r : AnalysisRequest)
    (h1 : r.id = e.analysisId) (h2 : e.analysisStatus = AnalysisStatus.running) :
    receiveAnalysisPhase1 e r =
      { e with analysisStatus :=
          if r.perform = PerformType.init ∨
             (e.analysisJaspResults = true ∧ r.perform = PerformType.run)
          then AnalysisStatus.changed else AnalysisStatus.aborted } := by
  unfold receiveAnalysisPhase1
  rw [if_pos ⟨h1, h2⟩]

/-- Outside the id-match branch the status-deciding phase adopts the new
id and maps the perform value to a status. -/
theorem receiveAnalysisPhase1_nomatch (e : Engine) (r : AnalysisRequest)
    (h : ¬(r.id = e.analysisId ∧ e.analysisStatus = AnalysisStatus.running)) :
    receiveAnalysisPhase1 e r =
      { e with
        analysisId := r.id
        analysisStatus :=
          match r.perform with
          | PerformType.init => AnalysisStatus.toInit
          | PerformType.run => AnalysisStatus.toRun
          | PerformType.saveImg => AnalysisStatus.saveImg
          | PerformType.editImg => AnalysisStatus.editImg
          | PerformType.rewriteImgs => AnalysisStatus.rewriteImgs
          | PerformType.abort => AnalysisStatus.error } := by
  unfold receiveAnalysisPhase1
  rw [if_neg h]

/-- A successful `receiveAnalysisMessage` is the status-deciding phase
followed by the conditional capture. -/
theorem receiveAnalysisMessage_ok_elim (e : Engine) (r : AnalysisRequest)
    (e' : Engine) (h : receiveAnalysisMessage e r = Except.ok e') :
    e' = (if statusTriggersCapture (receiveAnalysisPhase1 e r).analysisStatus
          then captureRequestFields (receiveAnalysisPhase1 e r) r
          else receiveAnalysisPhase1 e r) := by
  unfold receiveAnalysisMessage at h
  split at h
  · exact absurd h (by simp)
  · split at h
    · rename_i hc
      rw [if_pos hc]
      injection h with h
      exact h.symm
    · rename_i hc
      rw [if_neg hc]
      injection h with h
      exact h.symm

/-- C1: in `receiveAnalysisMessage`, when the request id equals the
active id and the status is `running`, the new status is `changed` for
perform init, or for perform run under the rich-results protocol, and
`aborted` for every other perform value; otherwise the engine adopts
the new id and maps perform init/run/saveImg/editImg/rewriteImgs to
toInit/toRun/saveImg/editImg/rewriteImgs, any other perform value
giving status error. -/
theorem receiveAnalysis_status_c1 (e : Engine) (r : AnalysisRequest)
    (e' : Engine) (h : receiveAnalysisMessage e r = Except.ok e') :
    ((r.id = e.analysisId ∧ e.analysisStatus = AnalysisStatus.running) →
       e'.analysisStatus =
         (if r.perform = PerformType.init ∨
             (e.analysisJaspResults = true ∧ r.perform = PerformType.run)
          then AnalysisStatus.changed else AnalysisStatus.aborted)) ∧
    (¬(r.id = e.analysisId ∧ e.analysisStatus = AnalysisStatus.running) →
       e'.analysisId = r.id ∧
       e'.analysisStatus =
         (match r.perform with
          | PerformType.init => AnalysisStatus.toInit
          | PerformType.run => AnalysisStatus.toRun
          | PerformType.saveImg => AnalysisStatus.saveImg
          | PerformType.editImg => AnalysisStatus.editImg
          | PerformType.rewriteImgs => AnalysisStatus.rewriteImgs
          | PerformType.abort => AnalysisStatus.error)) := by
  have he := receiveAnalysisMessage_ok_elim e r e' h
  constructor
  · rintro ⟨h1, h2⟩
    rw [receiveAnalysisPhase1_match e r h1 h2] at he
    subst he
    split <;> rfl
  · intro hn
    rw [receiveAnalysisPhase1_nomatch e r hn] at he
    subst he
    constructor
    · split <;> rfl
    · split <;> rfl

/-- Concrete run of `receiveAnalysis_status_c1`: a run request for the
already-running rich-results analysis id 5 yields status changed. -/
theorem c1_witness :
    c1req.id = c1eng.analysisId ∧
    c1eng.analysisStatus = AnalysisStatus.running ∧
    c1engAfter.analysisStatus = AnalysisStatus.changed := by
  refine ⟨rfl, rfl, ?_⟩
  have h := (receiveAnalysis_status_c1 c1eng c1req c1engAfter rfl).1 ⟨rfl, rfl⟩
  rw [h]
  rfl

/-- C3 counterexample: a same-id run request reaching the id-match
branch of `receiveAnalysisMessage` while the rich-results analysis 7 is
running yields status changed, and the pending-request fields ARE
recaptured from the new request (the options snapshot moves from
"oldOptions" to "newOptions"), contradicting the claim that the
id-match branch never recaptures. -/
theorem c3_counterexample :
    c3req.id = c3eng.analysisId ∧
    c3eng.analysisStatus = AnalysisStatus.running ∧
    receiveAnalysisMessage c3eng c3req = Except.ok c3engAfter ∧
    c3engAfter.analysisStatus = AnalysisStatus.changed ∧
    c3engAfter.analysisOptions = "newOptions" ∧
    c3eng.analysisOptions = "oldOptions" ∧
    c3engAfter.analysisName = "newName" := by
  exact ⟨rfl, rfl, rfl, rfl, rfl, rfl, rfl⟩

/-- C3 (amended): the pending-request fields are captured
(snapshot-replace) exactly when the status resulting from
`receiveAnalysisMessage` is one of toInit, toRun, changed, saveImg,
editImg, rewriteImgs, regardless of which branch produced it; in
particular an id-match yielding changed does recapture, and only an
id-match yielding aborted (or an unrecognized perform yielding error)
preserves the previous snapshot. -/
theorem receiveAnalysis_snapshot_c3 (e : Engine) (r : AnalysisRequest)
    (e' : Engine) (h : receiveAnalysisMessage e r = Except.ok e') :
    (statusTriggersCapture e'.analysisStatus = true → e'.snapshot = r.snapshot) ∧
    (statusTriggersCapture e'.analysisStatus = false → e'.snapshot = e.snapshot) := by
  have he := receiveAnalysisMessage_ok_elim e r e' h
  subst he
  by_cases hc : statusTriggersCapture (receiveAnalysisPhase1 e r).analysisStatus = true
  · rw [if_pos hc]
    refine ⟨fun _ => captureRequestFields_snap _ _, fun hf => ?_⟩
    rw [captureRequestFields_status] at hf
    rw [hc] at hf
    cases hf
  · simp only [Bool.not_eq_true] at hc
    rw [if_neg (by rw [hc]; exact Bool.false_ne_true)]
    refine ⟨fun ht => ?_, fun _ => receiveAnalysisPhase1_snap _ _⟩
    rw [hc] at ht
    cases ht

/-- Concrete run of `receiveAnalysis_snapshot_c3`: feeding the same-id
run request to the running analysis 7 recaptures the snapshot. -/
theorem c3_witness : c3engAfter.snapshot = c3req.snapshot :=
  (receiveAnalysis_snapshot_c3 c3eng c3req c3engAfter rfl).1 rfl

/-- An optional boolean defaulted to false is true exactly when it is
present and true. -/
theorem optGetDFalse_iff (o : Option Bool) : o.getD false = true ↔ o = some true := by
  cases o <;> simp

/-- The reentrant callback never touches the rich-results flag. -/
theorem callbackCore_jaspResults (e : Engine) (results : String) (progress : Int) :
    (callbackCore e results progress).2.1.analysisJaspResults = e.analysisJaspResults := by
  unfold callbackCore
  dsimp only
  repeat' split
  all_goals rfl

/-- The tail of `runAnalysis` never touches the rich-results flag. -/
theorem runAnalysisPostReturn_jaspResults (e : Engine) :
    (runAnalysisPostReturn e).engine.analysisJaspResults = e.analysisJaspResults := by
  unfold runAnalysisPostReturn
  split
  · rfl
  · split
    · rfl
    · split <;> rfl

/-- C9: whenever the request fields are captured as the pending analysis
request, the captured rich-results (jaspResults) flag is true exactly
when the dynamicModuleCall field is a non-empty string or the
jaspResults field is present and true; and neither the reentrant
callback nor the post-return tail of runAnalysis modifies the flag
afterwards. -/
theorem jaspResultsFlag_c9 (e : Engine) (r : AnalysisRequest) (e' : Engine)
    (results : String) (progress : Int)
    (h : receiveAnalysisMessage e r = Except.ok e') :
    (statusTriggersCapture e'.analysisStatus = true →
       (e'.analysisJaspResults = true ↔
         (r.dynamicModuleCall ≠ "" ∨ r.jaspResults = some true))) ∧
    (callbackCore e' results progress).2.1.analysisJaspResults = e'.analysisJaspResults ∧
    (runAnalysisPostReturn e').engine.analysisJaspResults = e'.analysisJaspResults := by
  refine ⟨?_, callbackCore_jaspResults e' results progress,
          runAnalysisPostReturn_jaspResults e'⟩
  intro hc
  have he := receiveAnalysisMessage_ok_elim e r e' h
  by_cases hcap : statusTriggersCapture (receiveAnalysisPhase1 e r).analysisStatus = true
  · rw [if_pos hcap] at he
    subst he
    show ((r.dynamicModuleCall != "") || r.jaspResults.getD false) = true ↔ _
    rw [Bool.or_eq_true, bne_iff_ne, optGetDFalse_iff]
  · simp only [Bool.not_eq_true] at hcap
    rw [if_neg (by rw [hcap]; exact Bool.false_ne_true)] at he
    subst he
    rw [hcap] at hc
    cases hc

/-- Concrete run of `jaspResultsFlag_c9`: an init request carrying a
non-empty dynamicModuleCall is captured with the rich-results flag set. -/
theorem c9_witness :
    c9engAfter.analysisJaspResults = true ↔
      (c9req.dynamicModuleCall ≠ "" ∨ c9req.jaspResults = some true) :=
  (jaspResultsFlag_c9 engine0 c9req c9engAfter "res" 1 rfl).1 rfl

/-- C2 counterexample: an engine whose status after the re-entered
dispatch is `changed` but whose runtime was already informed (the flag
is set from the earlier callback that delivered the changed directive)
makes the callback return the ok directive, not the changed directive
required by the claim for every changed status. -/
theorem c2_counterexample :
    c2eng.analysisStatus = AnalysisStatus.changed ∧
    c2eng.currentAnalysisKnowsAboutChange = true ∧
    (callbackCore c2eng "null" (-1)).1 = Directive.ok := by
  exact ⟨rfl, rfl, rfl⟩

/-- C2 (amended): after the re-entered dispatch, if the status is
aborted/toInit/toRun the callback returns the aborted directive and
emits nothing; if the status is changed and the runtime has not yet
been informed, the callback sets the informed flag and returns the
changed directive with the latest options snapshot; if the status is
changed but the runtime was already informed, the callback resets the
status to running, clears the flag and returns ok; in every remaining
case it returns ok. -/
theorem callback_directive_c2 (e : Engine) (results : String) (progress : Int) :
    ((e.analysisStatus = AnalysisStatus.aborted ∨
      e.analysisStatus = AnalysisStatus.toInit ∨
      e.analysisStatus = AnalysisStatus.toRun) →
       (callbackCore e results progress).1 = Directive.aborted ∧
       (callbackCore e results progress).2.2 = []) ∧
    (e.analysisStatus = AnalysisStatus.changed →
     e.currentAnalysisKnowsAboutChange = false →
       (callbackCore e results progress).1 = Directive.changed e.analysisOptions ∧
       (callbackCore e results progress).2.1.currentAnalysisKnowsAboutChange = true ∧
       (callbackCore e results progress).2.1.analysisStatus = AnalysisStatus.changed) ∧
    (e.analysisStatus = AnalysisStatus.changed →
     e.currentAnalysisKnowsAboutChange = true →
       (callbackCore e results progress).1 = Directive.ok ∧
       (callbackCore e results progress).2.1.analysisStatus = AnalysisStatus.running ∧
       (callbackCore e results progress).2.1.currentAnalysisKnowsAboutChange = false) ∧
    ((e.analysisStatus ≠ AnalysisStatus.aborted ∧
      e.analysisStatus ≠ AnalysisStatus.toInit ∧
      e.analysisStatus ≠ AnalysisStatus.toRun ∧
      e.analysisStatus ≠ AnalysisStatus.changed) →
       (callbackCore e results progress).1 = Directive.ok) := by
  refine ⟨?_, ?_, ?_, ?_⟩
  · intro h
    unfold callbackCore
    rw [if_pos h]
    exact ⟨rfl, rfl⟩
  · intro h1 h2
    by_cases hr : results = "null"
    · simp [callbackCore, h1, h2, hr]
    · simp [callbackCore, h1, h2, hr]
  · intro h1 h2
    by_cases hr : results = "null"
    · by_cases hp : progress ≥ 0
      · simp [callbackCore, h1, h2, hr, hp]
      · simp [callbackCore, h1, h2, hr, hp]
    · simp [callbackCore, h1, h2, hr]
  · rintro ⟨n1, n2, n3, n4⟩
    by_cases hr : results = "null"
    · by_cases hp : progress ≥ 0
      · by_cases hrun : e.analysisStatus = AnalysisStatus.running
        · simp [callbackCore, n1, n2, n3, n4, hr, hp, hrun]
        · simp [callbackCore, n1, n2, n3, n4, hr, hp, hrun]
      · simp [callbackCore, n1, n2, n3, n4, hr, hp]
    · simp [callbackCore, n1, n2, n3, n4, hr]

/-- Concrete run of `callback_directive_c2`: with status changed and the
runtime not yet informed, the callback returns the changed directive
carrying the captured options and sets the informed flag. -/
theorem c2_witness :
    (callbackCore c2wEng "res" 5).1 = Directive.changed c2wEng.analysisOptions ∧
    (callbackCore c2wEng "res" 5).2.1.currentAnalysisKnowsAboutChange = true ∧
    (callbackCore c2wEng "res" 5).2.1.analysisStatus = AnalysisStatus.changed :=
  (callback_directive_c2 c2wEng "res" 5).2.1 rfl rfl

/-- C4 counterexample: the runtime returned a non-null result while the
status is changed and the runtime never invoked the callback (the
informed flag is false). The status is forced to toInit and no response
is emitted, but the temp files of the analysis id are NOT deleted,
contradicting the claim that they are deleted in every case of the
disjunction. -/
theorem c4_counterexample :
    c4cexEng.analysisStatus = AnalysisStatus.changed ∧
    c4cexEng.currentAnalysisKnowsAboutChange = false ∧
    c4cexEng.analysisResultsString ≠ "null" ∧
    (runAnalysisPostReturn c4cexEng).engine.analysisStatus = AnalysisStatus.toInit ∧
    (runAnalysisPostReturn c4cexEng).responses = [] ∧
    (runAnalysisPostReturn c4cexEng).tempFilesDeleted = false := by
  exact ⟨rfl, rfl, by decide, rfl, rfl, rfl⟩

/-- C4 (amended): when the runtime returns with status changed and
either the runtime was never informed of the change or the returned
result string is the sentinel "null", the status is set to toInit and
no response is emitted; the temp files attributed to the analysis id
are deleted exactly when the returned result string is "null". -/
theorem runAnalysis_changed_restart_c4 (e : Engine)
    (h1 : e.analysisStatus = AnalysisStatus.changed)
    (h2 : e.currentAnalysisKnowsAboutChange = false ∨
          e.analysisResultsString = "null") :
    (runAnalysisPostReturn e).engine.analysisStatus = AnalysisStatus.toInit ∧
    (runAnalysisPostReturn e).responses = [] ∧
    ((runAnalysisPostReturn e).tempFilesDeleted = true ↔
      e.analysisResultsString = "null") := by
  unfold runAnalysisPostReturn
  rw [if_neg (by simp [h1]), if_pos ⟨h1, h2⟩]
  refine ⟨rfl, rfl, ?_⟩
  simp

/-- Concrete run of `runAnalysis_changed_restart_c4`: a "null" return
with status changed forces toInit, emits nothing and deletes the temp
files of the id. -/
theorem c4_witness :
    (runAnalysisPostReturn c4eng).engine.analysisStatus = AnalysisStatus.toInit ∧
    (runAnalysisPostReturn c4eng).responses = [] ∧
    ((runAnalysisPostReturn c4eng).tempFilesDeleted = true ↔
      c4eng.analysisResultsString = "null") :=
  runAnalysis_changed_restart_c4 c4eng rfl (Or.inr rfl)

/-- C5: on pauseRequested/stopRequested, an in-flight analysis is marked
aborted before the transition to paused/stopped; an arrival during
filter or computeColumn throws; in every other engine state nothing is
marked aborted and no error is raised; in all non-throwing states the
paused respectively stopped acknowledgment is sent. -/
theorem stop_pause_c5 (e : Engine) :
    (e.engineState = EngineState.analysis →
       stopEngine e =
         Except.ok ({ e with analysisStatus := AnalysisStatus.aborted
                             engineState := EngineState.stopped },
                    EngineState.stopped) ∧
       pauseEngine e =
         Except.ok ({ e with analysisStatus := AnalysisStatus.aborted
                             engineState := EngineState.paused },
                    EngineState.paused)) ∧
    ((e.engineState = EngineState.filter ∨
      e.engineState = EngineState.computeColumn) →
       exceptErrored (stopEngine e) = true ∧
       exceptErrored (pauseEngine e) = true) ∧
    ((e.engineState ≠ EngineState.analysis ∧
      e.engineState ≠ EngineState.filter ∧
      e.engineState ≠ EngineState.computeColumn) →
       stopEngine e =
         Except.ok ({ e with engineState := EngineState.stopped },
                    EngineState.stopped) ∧
       pauseEngine e =
         Except.ok ({ e with engineState := EngineState.paused },
                    EngineState.paused)) := by
  refine ⟨?_, ?_, ?_⟩
  · intro h
    constructor <;> simp [stopEngine, pauseEngine, h]
  · intro h
    constructor <;> simp [stopEngine, pauseEngine, exceptErrored, h]
  · rintro ⟨n1, n2, n3⟩
    constructor <;> simp [stopEngine, pauseEngine, n1, n2, n3]

/-- Concrete run of `stop_pause_c5`: pause and stop during a running
analysis mark it aborted and acknowledge. -/
theorem c5_witness :
    stopEngine c5eng =
      Except.ok ({ c5eng with analysisStatus := AnalysisStatus.aborted
                              engineState := EngineState.stopped },
                 EngineState.stopped) ∧
    pauseEngine c5eng =
      Except.ok ({ c5eng with analysisStatus := AnalysisStatus.aborted
                              engineState := EngineState.paused },
                 EngineState.paused) :=
  (stop_pause_c5 c5eng).1 rfl

/-- C6: a non-empty typeRequest tag that does not name one of the ten
handled request types makes the dispatch raise a fatal error; an absent
or empty tag makes the dispatch return without running any handler and
without error. -/
theorem dispatch_unknown_c6 (s : String) :
    receiveMessagesDispatch none = Except.ok DispatchResult.noMessage ∧
    receiveMessagesDispatch (some "") = Except.ok DispatchResult.noMessage ∧
    (s ≠ "" → tagHandled s = false →
       exceptErrored (receiveMessagesDispatch (some s)) = true) := by
  refine ⟨rfl, rfl, ?_⟩
  intro h1 h2
  unfold tagHandled at h2
  unfold receiveMessagesDispatch
  dsimp only
  rw [if_neg h1]
  revert h2
  cases engineStateFromString s with
  | none => intro h2; rfl
  | some t =>
    intro h2
    dsimp only at h2 ⊢
    rw [h2]
    rfl

/-- Concrete run of `dispatch_unknown_c6`: the tag "paused" names an
engine state but not a handled request type, so dispatch raises. -/
theorem c6_witness :
    exceptErrored (receiveMessagesDispatch (some "paused")) = true :=
  (dispatch_unknown_c6 "paused").2.2 (by decide) (by decide)

/-- C7: a thrown filter error is caught and reported as a structured
filter response carrying the filter typeRequest, a filterError message
and the echoed requestId, and in both the success and the error case
the engine state is idle when the filter handler completes. -/
theorem runFilter_c7 (e : Engine)
    (outcome : Except String (List Bool × String)) (requestId : Int) :
    (runFilter e outcome requestId).1.engineState = EngineState.idle ∧
    (∀ msg, outcome = Except.error msg →
       (runFilter e outcome requestId).2.typeRequest = "filter" ∧
       (runFilter e outcome requestId).2.requestId = requestId ∧
       (runFilter e outcome requestId).2.filterError.isSome = true) := by
  constructor
  · cases outcome <;> rfl
  · intro msg hm
    subst hm
    exact ⟨rfl, rfl, rfl⟩

/-- Concrete run of `runFilter_c7`: a thrown filter exception produces
the structured error response and the engine returns to idle. -/
theorem c7_witness :
    (runFilter engine0 (Except.error "boom") 9).1.engineState = EngineState.idle ∧
    (runFilter engine0 (Except.error "boom") 9).2.typeRequest = "filter" ∧
    (runFilter engine0 (Except.error "boom") 9).2.requestId = 9 ∧
    (runFilter engine0 (Except.error "boom") 9).2.filterError.isSome = true :=
  ⟨(runFilter_c7 engine0 (Except.error "boom") 9).1,
   (runFilter_c7 engine0 (Except.error "boom") 9).2 "boom" rfl⟩

/-- C8 counterexample: a module request arriving while the engine is not
idle (it is running an analysis) produces no unexpected-state log line,
because `Engine::receiveModuleRequestMessage` has no engine-state check,
contradicting the claim that all four message types log the unexpected
state. -/
theorem c8_counterexample :
    (c8eng.engineState != EngineState.idle) = true ∧
    (receiveModuleRequestMessage c8eng c8mreq "succes!" "").2 = false := by
  exact ⟨rfl, rfl⟩

/-- C8 (amended): a filter, rCode or computeColumn message arriving
while the engine is not idle is logged as unexpected but not rejected,
and a moduleRequest message is not rejected either but is never logged;
each of the four handlers runs to completion exactly as it would from
idle. -/
theorem notIdleTolerated_c8 (e : Engine) (freq : FilterRequest)
    (fout : Except String (List Bool × String)) (rreq : RCodeRequest)
    (hasData : Bool) (decodeAll : String → String)
    (ew ef cr le colName colCode ccEval ccErr mEval mErr : String)
    (mreq : ModuleRequestMsg) :
    (receiveFilterMessage e freq fout).2 = (e.engineState != EngineState.idle) ∧
    (receiveFilterMessage e freq fout).1 =
      (receiveFilterMessage { e with engineState := EngineState.idle } freq fout).1 ∧
    (receiveRCodeMessage e rreq hasData decodeAll ew ef cr le).2 =
      (e.engineState != EngineState.idle) ∧
    (receiveRCodeMessage e rreq hasData decodeAll ew ef cr le).1 =
      (receiveRCodeMessage { e with engineState := EngineState.idle }
        rreq hasData decodeAll ew ef cr le).1 ∧
    (receiveComputeColumnMessage e colName colCode ccEval ccErr).2 =
      (e.engineState != EngineState.idle) ∧
    (receiveComputeColumnMessage e colName colCode ccEval ccErr).1 =
      (receiveComputeColumnMessage { e with engineState := EngineState.idle }
        colName colCode ccEval ccErr).1 ∧
    (receiveModuleRequestMessage e mreq mEval mErr).2 = false ∧
    (receiveModuleRequestMessage e mreq mEval mErr).1 =
      (receiveModuleRequestMessage { e with engineState := EngineState.idle }
        mreq mEval mErr).1 := by
  refine ⟨rfl, ?_, rfl, ?_, rfl, rfl, rfl, rfl⟩
  · cases fout <;> rfl
  · cases rreq.returnLog <;> rfl

/-- C10: an rCode request with returnLog true runs the commander variant
and the emitted response always carries requestId -1, regardless of the
supplied requestId, and the whiteListed field is ignored in this mode;
the supplied requestId is echoed back exactly when returnLog is false. -/
theorem rCodeCommander_c10 (e : Engine) (req : RCodeRequest) (hasData : Bool)
    (decodeAll : String → String) (ew ef cr le : String) (rid : Int) (wl : Bool) :
    (req.returnLog = true →
       (receiveRCodeMessage e req hasData decodeAll ew ef cr le).1.2.requestId = -1 ∧
       (receiveRCodeMessage e { req with requestId := rid, whiteListed := wl }
          hasData decodeAll ew ef cr le).1.2 =
         (receiveRCodeMessage e req hasData decodeAll ew ef cr le).1.2) ∧
    (req.returnLog = false →
       (receiveRCodeMessage e req hasData decodeAll ew ef cr le).1.2.requestId =
         req.requestId) := by
  constructor
  · intro h
    simp only [receiveRCodeMessage, runRCodeCommander, h]
    exact ⟨rfl, rfl⟩
  · intro h
    simp only [receiveRCodeMessage, runRCode, h]
    rw [if_neg (by simp)]
    split <;> split <;> rfl

/-- Concrete run of `rCodeCommander_c10`: a commander request with
supplied requestId 42 is answered with requestId -1, and flipping the
whiteListed field does not change the response. -/
theorem c10_witness :
    (receiveRCodeMessage engine0 c10req true id "a" "b" "c" "").1.2.requestId = -1 ∧
    (receiveRCodeMessage engine0 { c10req with requestId := 7, whiteListed := true }
       true id "a" "b" "c" "").1.2 =
      (receiveRCodeMessage engine0 c10req true id "a" "b" "c" "").1.2 :=
  (rCodeCommander_c10 engine0 c10req true id "a" "b" "c" "" 7 true).1 rfl
